import Mathlib

/-!
A shallow embedding of `sitemap_retriever.py` (the sitemap-tool repository)
and proofs about it.

The Python source manipulates strings, bytes, XML element trees and HTTP
responses.  Python strings are modelled as Lean `String`s, with the Python
`str` methods the source uses (`split`, `strip`, `lower`, `startswith`,
`endswith`, `find`, slicing, `in`) re-implemented on the underlying
character lists so that every definition is executable by the kernel.
Bytes (`response.content`) are modelled as `List Nat`.

Library calls whose behaviour the source relies on (`requests.Session.get`,
`xml.etree.ElementTree.fromstring`, `gzip.decompress`) are modelled as an
explicit environment `Env` of pure oracles: a deterministic map from URLs
to HTTP outcomes, and maps from byte sequences to parse/decompression
outcomes.  `urllib.parse.urlparse`/`urljoin` are modelled concretely for
the absolute `http`/`https` URL shapes the program uses.

Every run is instrumented with a trace: the list of URLs passed to
`session.get`, in request order.  This ghost information changes nothing
about the computed results and lets request-counting properties be stated.
-/

set_option autoImplicit false

namespace SitemapTool

/-! ## Python string primitives -/

/-- Model of Python `str.split(sep)` for a one-character separator: split on
every occurrence of the character, keeping empty segments, so that
`"".split(c)` is `[""]`. -/
def splitCharList (sep : Char) : List Char → List (List Char)
  | [] => [[]]
  | c :: rest =>
    if c = sep then [] :: splitCharList sep rest
    else
      match splitCharList sep rest with
      | h :: t => (c :: h) :: t
      | [] => [[c]]

/-- Model of Python `str.split(": ")`: scan left to right, splitting at each
non-overlapping occurrence of the two-character separator colon-space. -/
def splitColonSpaceList : List Char → List (List Char)
  | [] => [[]]
  | ':' :: ' ' :: rest => [] :: splitColonSpaceList rest
  | c :: rest =>
    match splitColonSpaceList rest with
    | h :: t => (c :: h) :: t
    | [] => [[c]]

/-- Python `s.split("\n")` on a Lean `String`. -/
def pySplitNl (s : String) : List String :=
  (splitCharList '\n' s.data).map String.mk

/-- Python `s.split(": ")` on a Lean `String`. -/
def pySplitColonSpace (s : String) : List String :=
  (splitColonSpaceList s.data).map String.mk

/-- The characters Python `str.strip()` removes (the ASCII whitespace set). -/
def pyIsSpace (c : Char) : Bool :=
  c = ' ' || c = '\t' || c = '\n' || c = '\r' || c = '\x0b' || c = '\x0c'

/-- Model of Python `str.strip()`: drop leading and trailing whitespace. -/
def pyStrip (s : String) : String :=
  String.mk (((s.data.dropWhile pyIsSpace).reverse.dropWhile pyIsSpace).reverse)

/-- Model of Python `str.lower()` (the source only lowercases ASCII text). -/
def pyLower (s : String) : String :=
  String.mk (s.data.map Char.toLower)

/-- Model of Python `s.startswith(p)`. -/
def pyStartsWith (s p : String) : Bool :=
  p.data.isPrefixOf s.data

/-- Model of Python `s.endswith(p)`. -/
def pyEndsWith (s p : String) : Bool :=
  p.data.isSuffixOf s.data

/-- Scan helper for `str.find`: index (relative to the start of the scanned
list, offset by `i`) of the first position where `sub` is a prefix. -/
def findSubAux (sub : List Char) : List Char → Nat → Option Nat
  | [], i => if sub.isPrefixOf ([] : List Char) then some i else none
  | c :: t, i => if sub.isPrefixOf (c :: t) then some i else findSubAux sub t (i + 1)

/-- Model of Python `s.find(sub, start)` (with `none` for `-1`): the least
index `≥ start` at which `sub` occurs in `s`. -/
def pyFindFrom (s sub : String) (start : Nat) : Option Nat :=
  (findSubAux sub.data (s.data.drop start) 0).map (start + ·)

/-- Model of Python `sub in s`. -/
def pyContains (s sub : String) : Bool :=
  (pyFindFrom s sub 0).isSome

/-- Model of Python slicing `s[a:b]` for `0 ≤ a ≤ b`. -/
def pySlice (s : String) (a b : Nat) : String :=
  String.mk ((s.data.take b).drop a)

/-! ## Model of `urllib.parse` for the URL shapes the program uses

The program only ever parses/joins absolute `http`/`https` URLs against
plain relative file names (the entries of `SITEMAP_INDICATORS` and the
fragments the HTML scanner extracts).  `urlparse`/`urljoin` are modelled
for exactly these shapes: a URL `scheme://netloc/path`. -/

/-- Split a character list at the first occurrence of `sep`, returning the
parts before and after it. -/
def splitFirstList (sep : List Char) : List Char → Option (List Char × List Char)
  | [] => if sep = [] then some ([], []) else none
  | c :: t =>
    if sep.isPrefixOf (c :: t) then some ([], (c :: t).drop sep.length)
    else
      match splitFirstList sep t with
      | some (a, b) => some (c :: a, b)
      | none => none

/-- The scheme separator `"://"` as a character list. -/
def schemeSep : List Char := [':', '/', '/']

/-- `urlparse(url).scheme` for an absolute URL: the text before the first
`"://"` (empty when there is none). -/
def urlparseScheme (url : String) : String :=
  match splitFirstList schemeSep url.data with
  | some (a, _) => String.mk a
  | none => ""

/-- The part of an absolute URL after the first `"://"`. -/
def afterSchemeList (url : String) : List Char :=
  match splitFirstList schemeSep url.data with
  | some (_, b) => b
  | none => []

/-- `urlparse(url).netloc` for an absolute URL: the authority component,
up to the first `/`, `?` or `#` after the scheme separator. -/
def urlparseNetloc (url : String) : String :=
  String.mk ((afterSchemeList url).takeWhile (fun c => c ≠ '/' && c ≠ '?' && c ≠ '#'))

/-- `urlparse(url).path` for an absolute URL: from the first `/` after the
authority up to the query or fragment. -/
def urlparsePath (url : String) : String :=
  String.mk
    (((afterSchemeList url).dropWhile (fun c => c ≠ '/' && c ≠ '?' && c ≠ '#')).takeWhile
      (fun c => c ≠ '?' && c ≠ '#'))

/-- The directory of a URL path: everything up to and including the last
`/`, or `"/"` when the path has no `/` (RFC 3986 merge for a non-empty
relative reference against a base with an authority). -/
def dirOfPath (path : String) : String :=
  let r := path.data.reverse.dropWhile (fun c => c ≠ '/')
  if r = [] then "/" else String.mk r.reverse

/-- Model of `urllib.parse.urljoin(base, rel)` for an absolute `http(s)`
base and the relative-reference shapes the program produces: an absolute
`http(s)` URL replaces the base; a root-relative path replaces the base
path; any other reference is resolved against the directory of the base
path. -/
def urljoin (base rel : String) : String :=
  if pyStartsWith rel "http://" || pyStartsWith rel "https://" then rel
  else if pyStartsWith rel "/" then
    urlparseScheme base ++ "://" ++ urlparseNetloc base ++ rel
  else
    urlparseScheme base ++ "://" ++ urlparseNetloc base ++ dirOfPath (urlparsePath base) ++ rel

/-! ## Model of `xml.etree.ElementTree` documents

An element is its tag (ElementTree's string representation, which is
`"\x7bnamespace-uri\x7dlocalname"` for a namespaced element), its text
(`None` for an element with no text, as ElementTree yields after parsing
an empty element), and its child elements in document order. -/

/-- An ElementTree element. -/
inductive XmlElem where
  | mk (tag : String) (text : Option String) (children : List XmlElem)

/-- The element's tag string (`element.tag`). -/
def XmlElem.tag : XmlElem → String
  | .mk t _ _ => t

/-- The element's text (`element.text`), `none` for Python `None`. -/
def XmlElem.text : XmlElem → Option String
  | .mk _ x _ => x

/-- The element's children in document order. -/
def XmlElem.children : XmlElem → List XmlElem
  | .mk _ _ cs => cs

/-- All elements of a forest together with their descendants, in document
(pre-)order. -/
def descList : List XmlElem → List XmlElem
  | [] => []
  | XmlElem.mk t x cs :: rest => XmlElem.mk t x cs :: (descList cs ++ descList rest)

/-- The proper descendants of an element in document order: what
ElementTree's `.//` path steps over. -/
def descendantsOf (root : XmlElem) : List XmlElem :=
  descList root.children

/-- The fully qualified tag the source searches for:
`".//\x7bhttp://www.sitemaps.org/schemas/sitemap/0.9\x7dloc"`. -/
def locTag : String := "\x7bhttp://www.sitemaps.org/schemas/sitemap/0.9\x7dloc"

/-- Model of `root.findall(".//\x7bns\x7dloc")`: every descendant of the
root whose tag is the namespace-qualified `loc` tag, in document order. -/
def findall_loc (root : XmlElem) : List XmlElem :=
  (descendantsOf root).filter (fun e => e.tag = locTag)

/-! ## HTTP environment -/

/-- One HTTP response as the source observes it: `response.status_code`,
whether `response.headers.get("Content-Type")` equals
`"application/x-gzip"`, `response.content` (bytes) and `response.text`
(the decoded textual body `requests` exposes). -/
structure HttpResponse where
  status : Nat
  contentTypeGzip : Bool
  body : List Nat
  text : String
deriving DecidableEq, Repr

/-- The outcome of `session.get`: a response, or a raised
`requests.RequestException`. -/
inductive FetchOutcome where
  | ok (r : HttpResponse)
  | exn
deriving DecidableEq, Repr

/-- The deterministic environment a run executes against: the network
(URL to fetch outcome), `xml.etree.ElementTree.fromstring` (bytes to a
parsed element, `none` when the library raises), and `gzip.decompress`
(`none` when the library raises). -/
structure Env where
  fetch : String → FetchOutcome
  fromstring : List Nat → Option XmlElem
  gunzip : List Nat → Option (List Nat)

/-! ## Data produced by the program -/

/-- The dictionary `get_sitemap_content` returns: either
`{"type": "index", "sitemaps": [...]}` or
`{"type": "sitemap", "urls": [...]}`.  The list elements are the `.text`
values of `loc` elements, hence `Option String` (`None` is possible). -/
inductive SitemapContent where
  | index (sitemaps : List (Option String))
  | sitemap (urls : List (Option String))
deriving DecidableEq, Repr

/-- One entry of `all_results`: `{"url": ..., "content": ...}`. -/
structure DiscoveryResult where
  url : String
  content : SitemapContent
deriving DecidableEq, Repr

/-- The list of candidate paths probed in order (`SITEMAP_INDICATORS`). -/
def SITEMAP_INDICATORS : List String :=
  ["sitemap.xml", "sitemap_index.xml", "sitemap-index.xml",
   "sitemap_index.xml.gz", "sitemap.xml.gz", "robots.txt"]

/-! ## `get_sitemap_content` -/

/-- Embedding of `get_sitemap_content(url, session, headers)` (source lines
104-138).  It fetches the URL; on status 200 it gunzips the body when the
URL ends in `.gz` or the content type is gzip, parses the bytes, and
classifies by whether the root tag ends with `"sitemapindex"`, extracting
the text of every `loc` descendant.  Every exception inside (transport,
decompression, parse) is caught and yields `None`. -/
def get_sitemap_content (env : Env) (url : String) : Option SitemapContent :=
  match env.fetch url with
  | .exn => none
  | .ok response =>
    if response.status = 200 then
      let dec : Option (List Nat) :=
        if pyEndsWith url ".gz" || response.contentTypeGzip then
          env.gunzip response.body
        else some response.body
      match dec with
      | none => none
      | some content =>
        match env.fromstring content with
        | none => none
        | some root =>
          if pyEndsWith root.tag "sitemapindex" then
            some (SitemapContent.index ((findall_loc root).map XmlElem.text))
          else
            some (SitemapContent.sitemap ((findall_loc root).map XmlElem.text))
    else none

/-- The sequence of URLs `get_sitemap_content` passes to `session.get`:
exactly one request, to its own URL, in every case. -/
def get_sitemap_content_trace (url : String) : List String := [url]

/-! ## `parse_robots_txt` -/

/-- One pass of the list comprehension in `parse_robots_txt` over the
lines: a line qualifies when its lowercasing starts with `"sitemap:"`; for
a qualifying line the comprehension evaluates `line.split(": ")[1]`, which
raises `IndexError` (modelled as `Except.error ()`) when the split has no
second component. -/
def robotsLines : List String → Except Unit (List String)
  | [] => .ok []
  | line :: rest =>
    if pyStartsWith (pyLower line) "sitemap:" then
      match (pySplitColonSpace line).get? 1 with
      | some seg =>
        match robotsLines rest with
        | .ok rs => .ok (pyStrip seg :: rs)
        | .error e => .error e
      | none => .error ()
    else robotsLines rest

/-- Embedding of `parse_robots_txt(robots_txt_content)` (source lines
141-146): split the text into lines and run the comprehension. -/
def parse_robots_txt (robots_txt_content : String) : Except Unit (List String) :=
  robotsLines (pySplitNl robots_txt_content)

/-! ## `find_sitemaps_in_html` -/

/-- The body of the inner loop of `find_sitemaps_in_html` for one line and
one indicator: when the indicator occurs in the line, extract either the
substring from the first `"http"` to the next double quote, or, when no
`"http"` occurs, the substring from the indicator to the next double quote
resolved against the base URL. -/
def scanLineIndicator (base line indicator : String) : List String :=
  if pyContains line indicator then
    match pyFindFrom line "http" 0 with
    | some start =>
      match pyFindFrom line "\"" start with
      | some e => [pySlice line start e]
      | none => []
    | none =>
      match pyFindFrom line indicator 0 with
      | some start =>
        match pyFindFrom line "\"" start with
        | some e => [urljoin base (pySlice line start e)]
        | none => []
      | none => []
  else []

/-- Embedding of `find_sitemaps_in_html(html_content, base_url)` (source
lines 149-165): for each line and each indicator, in order, append the
extracted URLs. -/
def find_sitemaps_in_html (html_content base_url : String) : List String :=
  (pySplitNl html_content).foldr
    (fun line acc =>
      SITEMAP_INDICATORS.foldr
        (fun indicator acc2 => scanLineIndicator base_url line indicator ++ acc2) [] ++ acc)
    []

/-! ## `get_sitemaps_from_url`

The orchestrator is instrumented with the list of URLs passed to
`session.get`, in request order.  The candidate loop's body catches only
`requests.RequestException`; the `IndexError` that
`parse_robots_txt` can raise propagates, modelled as `Except.error ()`. -/

/-- A request trace: the URLs passed to `session.get`, in order. -/
abbrev Trace := List String

/-- The loops `for sitemap_url in sitemap_urls: result =
get_sitemap_content(...); if result: all_results.append(...)` (source
lines 62-65 and 94-97): each URL is fetched once by
`get_sitemap_content`; successful parses are appended in order. -/
def expandUrls (env : Env) : List String → List DiscoveryResult × Trace
  | [] => ([], [])
  | u :: rest =>
    let res := get_sitemap_content env u
    let t := get_sitemap_content_trace u
    let (rs, ts) := expandUrls env rest
    (match res with
     | some c => { url := u, content := c } :: rs
     | none => rs,
     t ++ ts)

/-- One iteration of the candidate loop of `get_sitemaps_from_url` (source
lines 50-85) for the path `spath`: probe `urljoin(base_url, spath)`; on
200 either expand the robots.txt body or fetch-and-parse the candidate
itself; on 403 probe once more with the scheme flipped against the bare
authority, and fetch-and-parse the alternative on a 200 there; transport
errors are caught; an `IndexError` from `parse_robots_txt` is not. -/
def handleCandidate (env : Env) (base_url spath : String) :
    Except Unit (List DiscoveryResult) × Trace :=
  let full_path := urljoin base_url spath
  match env.fetch full_path with
  | .exn => (.ok [], [full_path])
  | .ok response =>
    if response.status = 200 then
      if spath = "robots.txt" then
        match parse_robots_txt response.text with
        | .error e => (.error e, [full_path])
        | .ok sitemap_urls =>
          let (rs, t) := expandUrls env sitemap_urls
          (.ok rs, full_path :: t)
      else
        match get_sitemap_content env full_path with
        | some c => (.ok [{ url := full_path, content := c }],
                     full_path :: get_sitemap_content_trace full_path)
        | none => (.ok [], full_path :: get_sitemap_content_trace full_path)
    else if response.status = 403 then
      let alt_scheme := if urlparseScheme base_url = "http" then "https" else "http"
      let alt_base_url := alt_scheme ++ "://" ++ urlparseNetloc base_url
      let alt_full_path := urljoin alt_base_url spath
      match env.fetch alt_full_path with
      | .exn => (.ok [], [full_path, alt_full_path])
      | .ok alt_response =>
        if alt_response.status = 200 then
          match get_sitemap_content env alt_full_path with
          | some c => (.ok [{ url := alt_full_path, content := c }],
                       full_path :: alt_full_path :: get_sitemap_content_trace alt_full_path)
          | none => (.ok [], full_path :: alt_full_path :: get_sitemap_content_trace alt_full_path)
        else (.ok [], [full_path, alt_full_path])
    else (.ok [], [full_path])

/-- The candidate loop over a list of paths.  An uncaught error from one
iteration aborts the loop (and the run), as an uncaught Python exception
would; otherwise results and traces accumulate in order. -/
def candidateLoop (env : Env) (base_url : String) : List String → Except Unit (List DiscoveryResult) × Trace
  | [] => (.ok [], [])
  | spath :: rest =>
    match handleCandidate env base_url spath with
    | (.error e, t) => (.error e, t)
    | (.ok rs, t) =>
      match candidateLoop env base_url rest with
      | (.error e, t2) => (.error e, t ++ t2)
      | (.ok rs2, t2) => (.ok (rs ++ rs2), t ++ t2)

/-- The homepage fallback of `get_sitemaps_from_url` (source lines 87-99):
fetch the base URL; on status 200 scan the body for sitemap references and
fetch-and-parse each; transport errors are caught. -/
def homepageFallback (env : Env) (base_url : String) : List DiscoveryResult × Trace :=
  match env.fetch base_url with
  | .exn => ([], [base_url])
  | .ok homepage_response =>
    if homepage_response.status = 200 then
      let sitemap_urls := find_sitemaps_in_html homepage_response.text base_url
      let (rs, t) := expandUrls env sitemap_urls
      (rs, base_url :: t)
    else ([], [base_url])

/-- Embedding of `get_sitemaps_from_url(base_url, threshold)` (source
lines 40-101): run the candidate loop over `SITEMAP_INDICATORS`; when it
completes with no results, run the homepage fallback.  The first
component is the returned `all_results` (or the uncaught exception), the
second the trace of all URLs requested.  The `threshold` argument is part
of the source's signature and is never read. -/
def get_sitemaps_from_url (env : Env) (base_url : String) (threshold : Int) :
    Except Unit (List DiscoveryResult) × Trace :=
  match candidateLoop env base_url SITEMAP_INDICATORS with
  | (.error e, t) => (.error e, t)
  | (.ok all_results, t) =>
    if all_results.isEmpty then
      let (rs, t2) := homepageFallback env base_url
      (.ok (all_results ++ rs), t ++ t2)
    else (.ok all_results, t)

/-! ## The recovery step the specification describes

The specification's Sitemap Parser performs, on a failed strict parse, a
lossy UTF-8 re-decode (discarding invalid byte sequences) followed by a
re-encode and one retry.  No such step exists in the source; it is
modelled here from the spec so that its absence can be stated. -/

/-- Whether a byte is a UTF-8 continuation byte. -/
def isCont (b : Nat) : Bool := 0x80 ≤ b && b ≤ 0xBF

/-- Modelled from the spec: the recovery transformation the spec's Sitemap
Parser applies before its single retry — decode the bytes as UTF-8 with
invalid sequences discarded (Python `bytes.decode("utf-8", "ignore")`) and
re-encode.  Valid sequences round-trip, so this keeps every well-formed
UTF-8 sequence and drops invalid bytes.  Absent from the source
(`get_sitemap_content` parses exactly once). -/
def lossyReencode : List Nat → List Nat
  | [] => []
  | b :: rest =>
    if b ≤ 0x7F then b :: lossyReencode rest
    else if 0xC2 ≤ b && b ≤ 0xDF then
      match rest with
      | c1 :: r =>
        if isCont c1 then b :: c1 :: lossyReencode r
        else lossyReencode (c1 :: r)
      | [] => []
    else if 0xE0 ≤ b && b ≤ 0xEF then
      match rest with
      | c1 :: r1 =>
        let okc1 : Bool :=
          if b = 0xE0 then 0xA0 ≤ c1 && c1 ≤ 0xBF
          else if b = 0xED then 0x80 ≤ c1 && c1 ≤ 0x9F
          else isCont c1
        if okc1 then
          match r1 with
          | c2 :: r2 =>
            if isCont c2 then b :: c1 :: c2 :: lossyReencode r2
            else lossyReencode (c2 :: r2)
          | [] => []
        else lossyReencode (c1 :: r1)
      | [] => []
    else if 0xF0 ≤ b && b ≤ 0xF4 then
      match rest with
      | c1 :: r1 =>
        let okc1 : Bool :=
          if b = 0xF0 then 0x90 ≤ c1 && c1 ≤ 0xBF
          else if b = 0xF4 then 0x80 ≤ c1 && c1 ≤ 0x8F
          else isCont c1
        if okc1 then
          match r1 with
          | c2 :: r2 =>
            if isCont c2 then
              match r2 with
              | c3 :: r3 =>
                if isCont c3 then b :: c1 :: c2 :: c3 :: lossyReencode r3
                else lossyReencode (c3 :: r3)
              | [] => []
            else lossyReencode (c2 :: r2)
          | [] => []
        else lossyReencode (c1 :: r1)
      | [] => []
    else lossyReencode rest
termination_by l => l.length
decreasing_by all_goals simp_wf <;> omega

/-! ## CLI surface -/

/-- The outcome of `parse_arguments()`: parsed values, a help request
(argparse prints usage and exits 0), or an argument error (argparse prints
an error and exits the process with status 2). -/
inductive ArgsOutcome where
  | ok (url : String) (threshold : Int)
  | help
  | err
deriving DecidableEq, Repr

/-- Model of Python `int(s)` for the plain decimal literals argparse's
`type=int` receives: an optional sign followed by at least one digit. -/
def pyIntOfDigits : List Char → Option Int
  | [] => none
  | ds =>
    if ds.all (fun c => '0' ≤ c && c ≤ '9') then
      some (Int.ofNat (ds.foldl (fun n c => n * 10 + (c.toNat - '0'.toNat)) 0))
    else none

/-- Model of Python `int(s)` including an optional leading sign. -/
def pyInt (s : String) : Option Int :=
  match s.data with
  | '-' :: ds => (pyIntOfDigits ds).map (fun n => -n)
  | '+' :: ds => pyIntOfDigits ds
  | ds => pyIntOfDigits ds

/-- Argument scan for the parser configured in `parse_arguments` (source
lines 168-180): one required positional `url` and an optional
`-t`/`--threshold` taking an integer value (default 50), plus argparse's
automatic `-h`/`--help`.  Per CPython argparse semantics, a missing
positional, an extra positional, an unknown option, a missing option
value or a non-integer threshold all end in `parser.error`, which exits
the process with status 2.  (Condensed option spellings such as `-t5` or
`--threshold=5` are outside this model.) -/
def parseArgvScan : List String → Option String → Option Int → ArgsOutcome
  | [], pos, thr =>
    match pos with
    | some u => .ok u (thr.getD 50)
    | none => .err
  | a :: rest, pos, thr =>
    if a = "-h" || a = "--help" then .help
    else if a = "-t" || a = "--threshold" then
      match rest with
      | v :: r2 =>
        match pyInt v with
        | some n => parseArgvScan r2 pos (some n)
        | none => .err
      | [] => .err
    else if pyStartsWith a "-" && a ≠ "-" then .err
    else
      match pos with
      | none => parseArgvScan rest (some a) thr
      | some _ => .err

/-- Embedding of `parse_arguments()` applied to the command-line arguments
after the program name. -/
def parse_arguments (argv : List String) : ArgsOutcome :=
  parseArgvScan argv none none

/-- The process exit status of running `main()` (source lines 183-215)
with the given arguments against the given environment, per CPython
semantics: argparse errors exit 2, argparse help exits 0, a normal return
from `main` exits 0, and an uncaught exception (the only possible one
comes out of `get_sitemaps_from_url`) makes the interpreter exit 1.  The
printing in `main` only formats `results` and raises nothing. -/
def mainExitCode (env : Env) (argv : List String) : Nat :=
  match parse_arguments argv with
  | .err => 2
  | .help => 0
  | .ok url threshold =>
    match (get_sitemaps_from_url env url threshold).1 with
    | .error _ => 1
    | .ok _ => 0

/-! ## Concrete environments used to evaluate the embedding -/

/-- A plain 404 response. -/
def resp404 : HttpResponse := { status := 404, contentTypeGzip := false, body := [], text := "" }

/-- An environment in which every URL answers 404 and nothing parses. -/
def envAll404 : Env :=
  { fetch := fun _ => .ok resp404, fromstring := fun _ => none, gunzip := fun _ => none }

/-- An environment whose `robots.txt` answers 200 with a body whose single
line matches the `sitemap:` prefix but contains no colon-space separator. -/
def envRobotsBad : Env :=
  { fetch := fun u =>
      if u = "http://h/robots.txt" then
        .ok { status := 200, contentTypeGzip := false, body := [], text := "Sitemap:x" }
      else .ok resp404,
    fromstring := fun _ => none, gunzip := fun _ => none }

/-- The ElementTree tag of a sitemap-protocol `urlset` root. -/
def urlsetTag : String := "\x7bhttp://www.sitemaps.org/schemas/sitemap/0.9\x7durlset"

/-- A leaf sitemap document with one `loc` carrying a URL and one `loc`
with missing text. -/
def leafDoc : XmlElem :=
  .mk urlsetTag none [XmlElem.mk locTag (some "http://h/p1") [], XmlElem.mk locTag none []]

/-- The bytes `envLeaf` serves for the leaf document. -/
def leafBody : List Nat := [108, 49]

/-- An environment whose `sitemap.xml` answers 200 with `leafBody`, parsed
as `leafDoc`. -/
def envLeaf : Env :=
  { fetch := fun u =>
      if u = "http://h/sitemap.xml" then
        .ok { status := 200, contentTypeGzip := false, body := leafBody, text := "" }
      else .ok resp404,
    fromstring := fun b => if b = leafBody then some leafDoc else none,
    gunzip := fun _ => none }

/-- Bytes that are not valid XML: a stray `0xFF` before `"<a/>"`. -/
def bodyBad : List Nat := [255, 60, 97, 47, 62]

/-- The same bytes after discarding the invalid byte: `"<a/>"`. -/
def bodyGood : List Nat := [60, 97, 47, 62]

/-- An environment whose `sitemap.xml` answers 200 with `bodyBad`; the
parser oracle rejects `bodyBad` and accepts `bodyGood`, so a lossy
re-encode recovery, had the code performed one, would have succeeded. -/
def envNoRecovery : Env :=
  { fetch := fun u =>
      if u = "http://h/sitemap.xml" then
        .ok { status := 200, contentTypeGzip := false, body := bodyBad, text := "" }
      else .ok resp404,
    fromstring := fun b => if b = bodyGood then some (XmlElem.mk "a" none []) else none,
    gunzip := fun _ => none }

/-- An environment in which the first candidate of a base URL with a path
component answers 403 and everything else answers 404. -/
def envProto403 : Env :=
  { fetch := fun u =>
      if u = "http://h/a/sitemap.xml" then
        .ok { status := 403, contentTypeGzip := false, body := [], text := "" }
      else .ok resp404,
    fromstring := fun _ => none, gunzip := fun _ => none }

/-- A sitemap index document whose root tag is the namespaced
`sitemapindex`, with two child sitemap references. -/
def indexDoc : XmlElem :=
  .mk "\x7bhttp://www.sitemaps.org/schemas/sitemap/0.9\x7dsitemapindex" none
    [XmlElem.mk locTag (some "http://h/s1.xml") [], XmlElem.mk locTag (some "http://h/s2.xml") []]

/-- The bytes `envIndex` serves for the index document. -/
def indexBody : List Nat := [105, 49]

/-- An environment whose `sitemap.xml` answers 200 with `indexBody`,
parsed as `indexDoc`. -/
def envIndex : Env :=
  { fetch := fun u =>
      if u = "http://h/sitemap.xml" then
        .ok { status := 200, contentTypeGzip := false, body := indexBody, text := "" }
      else .ok resp404,
    fromstring := fun b => if b = indexBody then some indexDoc else none,
    gunzip := fun _ => none }

/-- Whether a `loc` element carries non-empty text (the spec's notion of a
valid entry). -/
def hasNonEmptyText (e : XmlElem) : Bool :=
  match XmlElem.text e with
  | some s => !s.isEmpty
  | none => false

/-- The shape of a candidate outcome up to result contents: error, or the
number of results.  Used to compare runs against environments that differ
only in parsed document contents. -/
def exLen (e : Except Unit (List DiscoveryResult)) : Except Unit Nat :=
  e.map List.length

/-! ## Claims -/

/-- Claim C1, counterexample.  A `robots.txt` body whose line `"Sitemap:x"`
matches the case-insensitive `sitemap:` prefix but contains no `": "`
separator makes `parse_robots_txt` raise `IndexError`; the candidate loop
catches only `requests.RequestException`, so the error is uncaught and the
run terminates with it, contradicting the claim that every error raised
while extracting sitemap URLs from a robots.txt body is converted into a
skip. -/
theorem c1_run_aborts_on_robots_error :
    (get_sitemaps_from_url envRobotsBad "http://h" 50).1 = Except.error () := rfl

/-- Claim C2, counterexample.  A leaf document with one `loc` whose text is
a URL and one `loc` with missing text yields a result list of length 2
with the missing entry included as `none` — the claim's exclusion of
empty/missing entries (which would yield exactly 1 entry) does not happen. -/
theorem c2_missing_text_not_excluded :
    get_sitemap_content envLeaf "http://h/sitemap.xml" =
      some (SitemapContent.sitemap [some "http://h/p1", none]) ∧
    ([some "http://h/p1", (none : Option String)].length = 1 → False) := by
  have h : findall_loc leafDoc =
      [XmlElem.mk locTag (some "http://h/p1") [], XmlElem.mk locTag none []] := by
    simp [findall_loc, descendantsOf, descList, leafDoc, XmlElem.children, XmlElem.tag]
  refine ⟨?_, by decide⟩
  have h0 : get_sitemap_content envLeaf "http://h/sitemap.xml" =
      some (SitemapContent.sitemap ((findall_loc leafDoc).map XmlElem.text)) := rfl
  rw [h0, h]
  rfl

/-- Claim C3, counterexample.  `bodyBad` fails the strict parse, and after
the spec's lossy UTF-8 re-encode it becomes `bodyGood`, which parses —
yet `get_sitemap_content` yields `none` (the resource is skipped): the
code attempts no recovery, so the input is not "successfully parsed on the
second attempt" as the claim states. -/
theorem c3_no_recovery_attempted :
    lossyReencode bodyBad = bodyGood ∧
    envNoRecovery.fromstring bodyBad = none ∧
    (envNoRecovery.fromstring (lossyReencode bodyBad)).isSome = true ∧
    get_sitemap_content envNoRecovery "http://h/sitemap.xml" = none := by
  have hl : lossyReencode bodyBad = bodyGood := by
    simp [lossyReencode, bodyBad, bodyGood, isCont]
  refine ⟨hl, rfl, ?_, rfl⟩
  rw [hl]
  rfl

/-- Claim C4, counterexample.  On the line `"sitemap: http://a: b"` the
code's `line.split(": ")[1]` yields `"http://a"` — the segment between the
first and second separator — not the entire remainder `"http://a: b"`
after the first separator, as the claim states. -/
theorem c4_not_entire_remainder :
    parse_robots_txt "sitemap: http://a: b" = Except.ok ["http://a"] ∧
    ("http://a" = "http://a: b" → False) :=
  ⟨rfl, by decide⟩

/-- Claim C5, counterexample.  With base URL `"http://h/a/"` the candidate
`"http://h/a/sitemap.xml"` answers 403; the claim says the follow-up goes
to the same path on the flipped scheme, `"https://h/a/sitemap.xml"`, but
the code rebuilds the URL from the bare authority and requests
`"https://h/sitemap.xml"` instead — the base URL's path component is
dropped. -/
theorem c5_alt_path_dropped :
    (get_sitemaps_from_url envProto403 "http://h/a/" 50).2.count "https://h/a/sitemap.xml" = 0 ∧
    (get_sitemaps_from_url envProto403 "http://h/a/" 50).2.count "https://h/sitemap.xml" = 1 :=
  ⟨rfl, rfl⟩

/-- Claim C9, counterexample.  With the required base-URL argument missing,
argparse's `parser.error` exits the process with status 2, not 1 as the
claim states. -/
theorem c9_missing_args_exit_two :
    mainExitCode envAll404 [] = 2 ∧ ((2 : Nat) = 1 → False) :=
  ⟨rfl, by decide⟩

/-- Claim C10 (confirmed): the `threshold` parameter of
`get_sitemaps_from_url` is accepted but never read, so for any base URL
and environment the discovery core returns identical result sequences (and
issues identical requests) for any two threshold values. -/
theorem c10_threshold_never_read (env : Env) (base_url : String) (t1 t2 : Int) :
    get_sitemaps_from_url env base_url t1 = get_sitemaps_from_url env base_url t2 := rfl

/-! ## Supporting lemmas -/

/-- Evaluation of `get_sitemap_content` on a 200, non-gzip response whose
body parses: the result is the classified document. -/
theorem gsc_eval (env : Env) (url : String) (r : HttpResponse) (root : XmlElem)
    (hf : env.fetch url = .ok r) (h200 : r.status = 200)
    (hgz : (pyEndsWith url ".gz" || r.contentTypeGzip) = false)
    (hp : env.fromstring r.body = some root) :
    get_sitemap_content env url =
      if pyEndsWith root.tag "sitemapindex" then
        some (SitemapContent.index ((findall_loc root).map XmlElem.text))
      else some (SitemapContent.sitemap ((findall_loc root).map XmlElem.text)) := by
  unfold get_sitemap_content
  rw [hf]
  simp [h200, hgz, hp]

/-- `expandUrls` is the filterMap of `get_sitemap_content` over the URL
list, and it requests exactly the listed URLs in order. -/
theorem expandUrls_eq (env : Env) (urls : List String) :
    expandUrls env urls =
      (urls.filterMap (fun u => (get_sitemap_content env u).map
         (fun c => ({ url := u, content := c } : DiscoveryResult))), urls) := by
  induction urls with
  | nil => rfl
  | cons u rest ih =>
    unfold expandUrls
    rw [ih]
    cases h : get_sitemap_content env u <;>
      simp [h, get_sitemap_content_trace, List.filterMap_cons]

/-- A suffix of `A ++ marker :: B` that avoids the marker character is a
suffix of `B`. -/
theorem suffix_drop_marker {sfx A B : List Char}
    (h : sfx <:+ A ++ '\x7d' :: B) (hm : '\x7d' ∉ sfx) : sfx <:+ B := by
  obtain ⟨t, ht⟩ := h
  rw [show A ++ '\x7d' :: B = (A ++ ['\x7d']) ++ B from by simp] at ht
  rcases List.append_eq_append_iff.mp ht with ⟨a', h1, h2⟩ | ⟨c', h1, h2⟩
  · cases a' with
    | nil => exact h2 ▸ (List.nil_append B ▸ List.suffix_refl B)
    | cons x xs =>
      exfalso
      have hlast : (t ++ x :: xs).getLast? = some '\x7d' := by
        rw [← h1]
        exact List.getLast?_concat A
      rw [List.getLast?_append] at hlast
      cases hgl : (x :: xs).getLast? with
      | none => simp [hgl] at hlast; simp [List.getLast?_eq_none_iff] at hgl
      | some y =>
        rw [hgl] at hlast
        simp [Option.or] at hlast
        have hmem : '\x7d' ∈ x :: xs :=
          List.mem_of_getLast?_eq_some (hlast ▸ hgl)
        apply hm
        rw [h2]
        exact List.mem_append_left B hmem
  · exact ⟨c', h2.symm⟩

/-- The data of the Clark-notation tag built from a namespace URI and a
local name. -/
theorem clark_data (ns lname : String) :
    ("\x7b" ++ ns ++ "\x7d" ++ lname).data =
      ('\x7b' :: ns.data) ++ '\x7d' :: lname.data := by
  rw [String.data_append, String.data_append, String.data_append,
    show ("\x7b" : String).data = ['\x7b'] from rfl,
    show ("\x7d" : String).data = ['\x7d'] from rfl]
  simp

/-- The source's classification check `root.tag.endswith("sitemapindex")`
on a namespaced ElementTree tag `"\x7bns\x7dlname"` agrees with the same
check on the bare local name: classification is independent of the
namespace part. -/
theorem pyEndsWith_clark (ns lname : String) :
    pyEndsWith ("\x7b" ++ ns ++ "\x7d" ++ lname) "sitemapindex" =
      pyEndsWith lname "sitemapindex" := by
  rw [Bool.eq_iff_iff]
  unfold pyEndsWith
  rw [List.isSuffixOf_iff_suffix, List.isSuffixOf_iff_suffix, clark_data]
  constructor
  · intro h
    exact suffix_drop_marker h (by decide)
  · rintro ⟨u, hu⟩
    exact ⟨('\x7b' :: ns.data) ++ '\x7d' :: u, by simp [hu]⟩

/-! ## Remaining claims -/

/-- Claim C2 (amended): for a well-formed leaf sitemap document with N
`loc` elements with non-empty text and M with empty or missing text,
parsing yields all N + M text entries in document order — nothing is
excluded; entries with missing text appear as `none`. -/
theorem c2_all_loc_texts_included (env : Env) (url : String) (r : HttpResponse) (root : XmlElem)
    (hf : env.fetch url = .ok r) (h200 : r.status = 200)
    (hgz : (pyEndsWith url ".gz" || r.contentTypeGzip) = false)
    (hp : env.fromstring r.body = some root)
    (hleaf : pyEndsWith root.tag "sitemapindex" = false) :
    get_sitemap_content env url =
      some (SitemapContent.sitemap ((findall_loc root).map XmlElem.text)) ∧
    ((findall_loc root).map XmlElem.text).length =
      ((findall_loc root).filter hasNonEmptyText).length +
        ((findall_loc root).filter (fun e => ! hasNonEmptyText e)).length := by
  constructor
  · rw [gsc_eval env url r root hf h200 hgz hp, hleaf]
    simp
  · rw [List.length_map]
    exact List.length_eq_length_filter_add hasNonEmptyText

/-- Witness for the amended C2 at a concrete environment: a leaf document
with one non-empty `loc` and one `loc` with missing text. -/
theorem c2_all_loc_texts_included_witness :
    envLeaf.fetch "http://h/sitemap.xml" =
      .ok { status := 200, contentTypeGzip := false, body := leafBody, text := "" } ∧
    (get_sitemap_content envLeaf "http://h/sitemap.xml" =
      some (SitemapContent.sitemap ((findall_loc leafDoc).map XmlElem.text)) ∧
    ((findall_loc leafDoc).map XmlElem.text).length =
      ((findall_loc leafDoc).filter hasNonEmptyText).length +
        ((findall_loc leafDoc).filter (fun e => ! hasNonEmptyText e)).length) :=
  ⟨rfl, c2_all_loc_texts_included envLeaf "http://h/sitemap.xml"
    { status := 200, contentTypeGzip := false, body := leafBody, text := "" } leafDoc
    rfl rfl (by decide) rfl (by decide)⟩

/-- Claim C3 (amended): the parser attempts no recovery — any fetched body
that fails the strict parse makes the resource yield nothing (it is
skipped, not fatal), even when the body would parse after the spec's
lossy UTF-8 re-encode. -/
theorem c3_parse_failure_skips_resource (env : Env) (url : String) (r : HttpResponse)
    (hf : env.fetch url = .ok r) (h200 : r.status = 200)
    (hgz : (pyEndsWith url ".gz" || r.contentTypeGzip) = false)
    (hp : env.fromstring r.body = none)
    (hrec : (env.fromstring (lossyReencode r.body)).isSome = true) :
    get_sitemap_content env url = none := by
  unfold get_sitemap_content
  rw [hf]
  simp [h200, hgz, hp]

/-- Witness for the amended C3 at a concrete environment: a body that the
parser rejects but whose lossy re-encode it would accept. -/
theorem c3_parse_failure_skips_resource_witness :
    (envNoRecovery.fromstring (lossyReencode bodyBad)).isSome = true ∧
    get_sitemap_content envNoRecovery "http://h/sitemap.xml" = none := by
  have hrec : (envNoRecovery.fromstring (lossyReencode bodyBad)).isSome = true := by
    rw [show lossyReencode bodyBad = bodyGood from by
      simp [lossyReencode, bodyBad, bodyGood, isCont]]
    rfl
  exact ⟨hrec, c3_parse_failure_skips_resource envNoRecovery "http://h/sitemap.xml"
    { status := 200, contentTypeGzip := false, body := bodyBad, text := "" }
    rfl rfl (by decide) rfl hrec⟩

/-- Characterization of the robots-line comprehension: when every
qualifying line splits into at least two colon-space fields, the result is
the trimmed second field of each qualifying line, in line order;
otherwise the comprehension raises `IndexError`. -/
theorem robotsLines_char (ls : List String) :
    robotsLines ls =
      if (ls.filter (fun l => pyStartsWith (pyLower l) "sitemap:")).all
          (fun l => decide (2 ≤ (pySplitColonSpace l).length)) then
        Except.ok ((ls.filter (fun l => pyStartsWith (pyLower l) "sitemap:")).map
          (fun l => pyStrip (((pySplitColonSpace l).get? 1).getD "")))
      else Except.error () := by
  induction ls with
  | nil => simp [robotsLines]
  | cons l rest ih =>
    by_cases hq : pyStartsWith (pyLower l) "sitemap:" = true
    · cases hg : (pySplitColonSpace l).get? 1 with
      | some seg =>
        have hlen : 2 ≤ (pySplitColonSpace l).length := by
          rcases List.get?_eq_some.mp hg with ⟨hl, _⟩
          omega
        have hg2 : (pySplitColonSpace l)[1]? = some seg := by
          rw [← List.get?_eq_getElem?]
          exact hg
        simp only [robotsLines, hq, if_true, hg, List.filter_cons_of_pos, hlen,
          List.all_cons, decide_eq_true_eq, ih]
        by_cases hall : ((rest.filter (fun l => pyStartsWith (pyLower l) "sitemap:")).all
            (fun l => decide (2 ≤ (pySplitColonSpace l).length))) = true
        · simp [hall, hlen, hg, hg2]
        · simp [hall, hlen]
      | none =>
        have hlen : (pySplitColonSpace l).length ≤ 1 := List.get?_eq_none.mp hg
        have hcond : decide (2 ≤ (pySplitColonSpace l).length) = false := by
          simp
          omega
        simp only [robotsLines, hq, if_true, hg]
        rw [List.filter_cons_of_pos (by simp [hq])]
        simp [List.all_cons, hcond]
    · simp only [robotsLines, hq, Bool.false_eq_true, if_false, ih]
      rw [List.filter_cons_of_neg (by simp [hq])]

/-- Claim C4 (amended): for every robots.txt input, each qualifying line
(case-insensitive `sitemap:` prefix) contributes, in line order, the
trimmed text between the first and second occurrence of the colon-space
separator (the entire remainder when the separator occurs once); all
other lines are ignored.  A qualifying line with no colon-space separator
raises an uncaught `IndexError` instead. -/
theorem c4_second_field_extracted (robots_txt_content : String) :
    parse_robots_txt robots_txt_content =
      if ((pySplitNl robots_txt_content).filter
            (fun l => pyStartsWith (pyLower l) "sitemap:")).all
          (fun l => decide (2 ≤ (pySplitColonSpace l).length)) then
        Except.ok (((pySplitNl robots_txt_content).filter
            (fun l => pyStartsWith (pyLower l) "sitemap:")).map
          (fun l => pyStrip (((pySplitColonSpace l).get? 1).getD "")))
      else Except.error () :=
  robotsLines_char (pySplitNl robots_txt_content)

/-- Claim C5 (amended): on a 403 probe the orchestrator issues exactly one
scheme-flipped follow-up probe, to the candidate path resolved against the
bare flipped-scheme authority (any path component of the base URL is
dropped); when the alternate probe answers 200 the alternate URL is
fetched once more by the decode+parse step (that second response is what
is parsed); on any non-200 alternate response nothing further is
requested for the candidate. -/
theorem c5_one_alternate_probe (env : Env) (base_url spath alt_full : String) (r : HttpResponse)
    (halt : alt_full =
      urljoin ((if urlparseScheme base_url = "http" then "https" else "http") ++ "://" ++
        urlparseNetloc base_url) spath)
    (hf : env.fetch (urljoin base_url spath) = .ok r) (h403 : r.status = 403) :
    (handleCandidate env base_url spath).2 =
      urljoin base_url spath :: alt_full ::
        (match env.fetch alt_full with
         | .ok ar => if ar.status = 200 then [alt_full] else []
         | .exn => []) := by
  unfold handleCandidate
  simp only [hf]
  rw [if_neg (show ¬ r.status = 200 by omega), if_pos h403, ← halt]
  cases ha : env.fetch alt_full with
  | exn => rfl
  | ok ar =>
    by_cases ha200 : ar.status = 200
    · simp only [ha200, if_true]
      cases get_sitemap_content env alt_full <;> rfl
    · simp only [ha200, if_false]

/-- Witness for the amended C5: base URL `"http://h/a/"`, whose first
candidate answers 403 and whose alternate probe answers 404. -/
theorem c5_one_alternate_probe_witness :
    "https://h/sitemap.xml" =
      urljoin ((if urlparseScheme "http://h/a/" = "http" then "https" else "http") ++ "://" ++
        urlparseNetloc "http://h/a/") "sitemap.xml" ∧
    (handleCandidate envProto403 "http://h/a/" "sitemap.xml").2 =
      urljoin "http://h/a/" "sitemap.xml" :: "https://h/sitemap.xml" ::
        (match envProto403.fetch "https://h/sitemap.xml" with
         | .ok ar => if ar.status = 200 then ["https://h/sitemap.xml"] else []
         | .exn => []) :=
  ⟨by decide, c5_one_alternate_probe envProto403 "http://h/a/" "sitemap.xml"
    "https://h/sitemap.xml" { status := 403, contentTypeGzip := false, body := [], text := "" }
    (by decide) rfl rfl⟩

/-- Claim C7 (confirmed): for a parsed document whose root tag is the
namespaced `"\x7bns\x7dlname"`, the classification is Index exactly when
the local name ends with `"sitemapindex"` (independent of the namespace
part); otherwise it is a Leaf; and the two variants are mutually
exclusive. -/
theorem c7_classification_by_local_name (env : Env) (url ns lname : String)
    (r : HttpResponse) (root : XmlElem)
    (hf : env.fetch url = .ok r) (h200 : r.status = 200)
    (hgz : (pyEndsWith url ".gz" || r.contentTypeGzip) = false)
    (hp : env.fromstring r.body = some root)
    (htag : root.tag = "\x7b" ++ ns ++ "\x7d" ++ lname) :
    ((∃ ls, get_sitemap_content env url = some (SitemapContent.index ls)) ↔
      pyEndsWith lname "sitemapindex" = true) ∧
    (pyEndsWith lname "sitemapindex" = false →
      ∃ us, get_sitemap_content env url = some (SitemapContent.sitemap us)) ∧
    (∀ ls us, ¬ (get_sitemap_content env url = some (SitemapContent.index ls) ∧
      get_sitemap_content env url = some (SitemapContent.sitemap us))) := by
  have he := gsc_eval env url r root hf h200 hgz hp
  rw [htag, pyEndsWith_clark] at he
  refine ⟨?_, ?_, ?_⟩
  · constructor
    · rintro ⟨ls, hls⟩
      by_contra hbc
      rw [Bool.not_eq_true] at hbc
      rw [he] at hls
      simp [hbc] at hls
    · intro hb
      rw [he]
      simp [hb]
  · intro hb
    rw [he]
    simp [hb]
  · rintro ls us ⟨h1, h2⟩
    rw [h1] at h2
    simp at h2

/-- Witness for C7 at a concrete environment serving a namespaced
`sitemapindex` document. -/
theorem c7_classification_by_local_name_witness :
    indexDoc.tag =
      "\x7b" ++ "http://www.sitemaps.org/schemas/sitemap/0.9" ++ "\x7d" ++ "sitemapindex" ∧
    (((∃ ls, get_sitemap_content envIndex "http://h/sitemap.xml" =
        some (SitemapContent.index ls)) ↔
      pyEndsWith "sitemapindex" "sitemapindex" = true) ∧
    (pyEndsWith "sitemapindex" "sitemapindex" = false →
      ∃ us, get_sitemap_content envIndex "http://h/sitemap.xml" =
        some (SitemapContent.sitemap us)) ∧
    (∀ ls us, ¬ (get_sitemap_content envIndex "http://h/sitemap.xml" =
        some (SitemapContent.index ls) ∧
      get_sitemap_content envIndex "http://h/sitemap.xml" =
        some (SitemapContent.sitemap us)))) :=
  ⟨rfl, c7_classification_by_local_name envIndex "http://h/sitemap.xml"
    "http://www.sitemaps.org/schemas/sitemap/0.9" "sitemapindex"
    { status := 200, contentTypeGzip := false, body := indexBody, text := "" } indexDoc
    rfl rfl (by decide) rfl rfl⟩

/-- A candidate iteration ends in an uncaught error exactly when it is the
robots.txt candidate, the probe answered 200, and the robots extraction
raised. -/
theorem handleCandidate_error_iff (env : Env) (base_url spath : String) :
    ((handleCandidate env base_url spath).1 = Except.error ()) ↔
      (spath = "robots.txt" ∧
       match env.fetch (urljoin base_url spath) with
       | .ok r => r.status = 200 ∧ parse_robots_txt r.text = Except.error ()
       | .exn => False) := by
  unfold handleCandidate
  cases hf : env.fetch (urljoin base_url spath) with
  | exn => simp [hf]
  | ok r =>
    simp only [hf]
    by_cases h200 : r.status = 200
    · by_cases hrb : spath = "robots.txt"
      · simp only [h200, if_true, hrb, if_pos]
        cases hpr : parse_robots_txt r.text with
        | error e =>
          cases e
          simp [hpr]
        | ok sitemap_urls =>
          simp [hpr]
      · simp only [h200, if_true]
        rw [if_neg hrb]
        cases get_sitemap_content env (urljoin base_url spath) <;> simp [hrb]
    · by_cases h403 : r.status = 403
      · rw [if_neg h200, if_pos h403]
        cases ha : env.fetch (urljoin ((if urlparseScheme base_url = "http" then "https"
            else "http") ++ "://" ++ urlparseNetloc base_url) spath) with
        | exn => simp [ha, h200]
        | ok ar =>
          simp only [ha]
          by_cases ha200 : ar.status = 200
          · simp only [ha200, if_true]
            cases get_sitemap_content env (urljoin ((if urlparseScheme base_url = "http"
                then "https" else "http") ++ "://" ++ urlparseNetloc base_url) spath) <;>
              simp [h200]
          · simp [ha200, h200]
      · rw [if_neg h200, if_neg h403]
        simp [h200]

/-- The candidate loop ends in an uncaught error exactly when some
candidate's iteration does. -/
theorem candidateLoop_error_iff (env : Env) (base_url : String) (l : List String) :
    ((candidateLoop env base_url l).1 = Except.error ()) ↔
      ∃ spath ∈ l, (handleCandidate env base_url spath).1 = Except.error () := by
  induction l with
  | nil => simp [candidateLoop]
  | cons s rest ih =>
    unfold candidateLoop
    cases hh : handleCandidate env base_url s with
    | mk e t =>
      cases e with
      | error e0 =>
        cases e0
        simp only [List.mem_cons]
        constructor
        · intro _
          exact ⟨s, Or.inl rfl, by rw [hh]⟩
        · intro _
          trivial
      | ok rs =>
        cases hl : candidateLoop env base_url rest with
        | mk e2 t2 =>
          cases e2 with
          | error e0 =>
            cases e0
            simp only [List.mem_cons]
            constructor
            · intro _
              obtain ⟨sp, hsp, herr⟩ := ih.mp (by rw [hl])
              exact ⟨sp, Or.inr hsp, herr⟩
            · intro _
              trivial
          | ok rs2 =>
            simp only [List.mem_cons]
            constructor
            · intro hcontra
              simp at hcontra
            · rintro ⟨sp, hsp | hsp, herr⟩
              · rw [hsp, hh] at herr
                simp at herr
              · have hthis : (candidateLoop env base_url rest).1 = Except.error () :=
                  ih.mpr ⟨sp, hsp, herr⟩
                rw [hl] at hthis
                simp at hthis

/-- The whole run ends in an uncaught error exactly when the candidate
loop does: the homepage fallback raises nothing. -/
theorem run_error_iff (env : Env) (base_url : String) (threshold : Int) :
    ((get_sitemaps_from_url env base_url threshold).1 = Except.error ()) ↔
      ((candidateLoop env base_url SITEMAP_INDICATORS).1 = Except.error ()) := by
  unfold get_sitemaps_from_url
  cases h : candidateLoop env base_url SITEMAP_INDICATORS with
  | mk e tr =>
    cases e with
    | error e0 =>
      cases e0
      simp
    | ok rs =>
      by_cases hrs : rs.isEmpty
      · cases hfb : homepageFallback env base_url with
        | mk rs2 t2 => simp [hrs, hfb]
      · simp [hrs]

/-- Claim C1 (amended): the run terminates with an uncaught error exactly
when the robots.txt probe answers 200 and extracting sitemap URLs from its
body raises (a qualifying line with no colon-space separator); every other
per-candidate or per-resource error — transport, decompression, parse —
is caught and converted into skipping that candidate or resource. -/
theorem c1_error_iff_robots_extraction_error (env : Env) (base_url : String) (threshold : Int) :
    ((get_sitemaps_from_url env base_url threshold).1 = Except.error ()) ↔
      (match env.fetch (urljoin base_url "robots.txt") with
       | .ok r => r.status = 200 ∧ parse_robots_txt r.text = Except.error ()
       | .exn => False) := by
  rw [run_error_iff, candidateLoop_error_iff]
  constructor
  · rintro ⟨spath, _, herr⟩
    obtain ⟨hrb, hc⟩ := (handleCandidate_error_iff env base_url spath).mp herr
    rw [hrb] at hc
    exact hc
  · intro hc
    exact ⟨"robots.txt", by simp [SITEMAP_INDICATORS],
      (handleCandidate_error_iff env base_url "robots.txt").mpr ⟨rfl, hc⟩⟩

/-- Claim C6 (confirmed): when the candidate loop completes with an empty
result sequence, the run issues exactly one fetch of the base URL, scans
its body for sitemap references only when that fetch answers 200, and
fetches+parses each extracted URL, appending successes; when the loop
completes with a non-empty sequence, nothing further is requested. -/
theorem c6_homepage_fallback_iff_empty (env : Env) (base_url : String) (threshold : Int)
    (rs : List DiscoveryResult) (tr : Trace)
    (h : candidateLoop env base_url SITEMAP_INDICATORS = (Except.ok rs, tr)) :
    (rs ≠ [] → get_sitemaps_from_url env base_url threshold = (Except.ok rs, tr)) ∧
    (rs = [] → get_sitemaps_from_url env base_url threshold =
      (match env.fetch base_url with
       | .exn => (Except.ok [], tr ++ [base_url])
       | .ok r =>
         if r.status = 200 then
           (Except.ok ((find_sitemaps_in_html r.text base_url).filterMap
              (fun u => (get_sitemap_content env u).map
                (fun c => ({ url := u, content := c } : DiscoveryResult)))),
            tr ++ base_url :: find_sitemaps_in_html r.text base_url)
         else (Except.ok [], tr ++ [base_url]))) := by
  constructor
  · intro hne
    unfold get_sitemaps_from_url
    rw [h]
    simp [List.isEmpty_iff, hne]
  · intro hempty
    subst hempty
    unfold get_sitemaps_from_url
    rw [h]
    simp only [List.isEmpty_nil, if_true]
    unfold homepageFallback
    cases hf : env.fetch base_url with
    | exn => simp
    | ok r =>
      by_cases h200 : r.status = 200
      · simp [h200, expandUrls_eq]
      · simp [h200]

/-- Witness for C6 at a concrete environment in which every candidate
answers 404, so the loop completes empty and the homepage (also 404) is
fetched exactly once. -/
theorem c6_homepage_fallback_iff_empty_witness :
    candidateLoop envAll404 "http://h" SITEMAP_INDICATORS =
      (Except.ok [], ["http://h/sitemap.xml", "http://h/sitemap_index.xml",
        "http://h/sitemap-index.xml", "http://h/sitemap_index.xml.gz",
        "http://h/sitemap.xml.gz", "http://h/robots.txt"]) ∧
    (([] : List DiscoveryResult) ≠ [] → get_sitemaps_from_url envAll404 "http://h" 50 =
      (Except.ok [], ["http://h/sitemap.xml", "http://h/sitemap_index.xml",
        "http://h/sitemap-index.xml", "http://h/sitemap_index.xml.gz",
        "http://h/sitemap.xml.gz", "http://h/robots.txt"])) ∧
    (([] : List DiscoveryResult) = [] → get_sitemaps_from_url envAll404 "http://h" 50 =
      (match envAll404.fetch "http://h" with
       | .exn => (Except.ok [], ["http://h/sitemap.xml", "http://h/sitemap_index.xml",
          "http://h/sitemap-index.xml", "http://h/sitemap_index.xml.gz",
          "http://h/sitemap.xml.gz", "http://h/robots.txt"] ++ ["http://h"])
       | .ok r =>
         if r.status = 200 then
           (Except.ok ((find_sitemaps_in_html r.text "http://h").filterMap
              (fun u => (get_sitemap_content envAll404 u).map
                (fun c => ({ url := u, content := c } : DiscoveryResult)))),
            ["http://h/sitemap.xml", "http://h/sitemap_index.xml",
             "http://h/sitemap-index.xml", "http://h/sitemap_index.xml.gz",
             "http://h/sitemap.xml.gz", "http://h/robots.txt"] ++
              "http://h" :: find_sitemaps_in_html r.text "http://h")
         else (Except.ok [], ["http://h/sitemap.xml", "http://h/sitemap_index.xml",
          "http://h/sitemap-index.xml", "http://h/sitemap_index.xml.gz",
          "http://h/sitemap.xml.gz", "http://h/robots.txt"] ++ ["http://h"]))) := by
  refine ⟨rfl, ?_⟩
  exact c6_homepage_fallback_iff_empty envAll404 "http://h" 50 [] _ rfl

/-- Claim C9 (amended): a missing required argument or an invalid option
exits the process with status 2 (argparse's convention); with a base URL
supplied the process exits 0 when discovery returns normally — caught
discovery errors included — and exits 1 when discovery raises an uncaught
error. -/
theorem c9_exit_codes (env : Env) (u : String) (hu : pyStartsWith u "-" = false) :
    mainExitCode env [] = 2 ∧
    mainExitCode env ["-x"] = 2 ∧
    mainExitCode env [u] =
      (match (get_sitemaps_from_url env u 50).1 with
       | .ok _ => 0
       | .error _ => 1) := by
  refine ⟨rfl, rfl, ?_⟩
  have hne1 : u ≠ "-h" := fun h => by rw [h] at hu; exact absurd hu (by decide)
  have hne2 : u ≠ "--help" := fun h => by rw [h] at hu; exact absurd hu (by decide)
  have hne3 : u ≠ "-t" := fun h => by rw [h] at hu; exact absurd hu (by decide)
  have hne4 : u ≠ "--threshold" := fun h => by rw [h] at hu; exact absurd hu (by decide)
  simp only [mainExitCode, parse_arguments, parseArgvScan, hne1, hne2, hne3, hne4, hu,
    decide_False, Bool.or_false, Bool.false_or, Bool.false_and, Bool.or_self,
    Bool.false_eq_true, if_false, Option.getD_none]
  cases (get_sitemaps_from_url env u 50).1 <;> rfl

/-- Witness for the amended C9 at a concrete environment and URL. -/
theorem c9_exit_codes_witness :
    pyStartsWith "http://h" "-" = false ∧
    (mainExitCode envAll404 [] = 2 ∧
     mainExitCode envAll404 ["-x"] = 2 ∧
     mainExitCode envAll404 ["http://h"] =
       (match (get_sitemaps_from_url envAll404 "http://h" 50).1 with
        | .ok _ => 0
        | .error _ => 1)) :=
  ⟨by decide, c9_exit_codes envAll404 "http://h" (by decide)⟩

/-! ## Agreement lemmas for C8

Two environments that serve the same responses and the same
gzip/parse success behaviour — but may parse to arbitrarily different
documents (in particular, different index children) — drive the run
through the same requests. -/

/-- The classification step of `get_sitemap_content` succeeds exactly when
the parse did. -/
theorem isSome_parse_step (o : Option XmlElem) :
    (match o with
     | none => none
     | some root =>
       if pyEndsWith root.tag "sitemapindex" = true then
         some (SitemapContent.index ((findall_loc root).map XmlElem.text))
       else some (SitemapContent.sitemap ((findall_loc root).map XmlElem.text))).isSome =
      o.isSome := by
  cases o with
  | none => rfl
  | some root =>
    show (if pyEndsWith root.tag "sitemapindex" = true then
        some (SitemapContent.index ((findall_loc root).map XmlElem.text))
      else some (SitemapContent.sitemap ((findall_loc root).map XmlElem.text))).isSome =
      (some root).isSome
    split <;> rfl

/-- Parse success of `get_sitemap_content` depends only on the fetch, the
gunzip and the parse-success oracle, not on parsed document contents. -/
theorem gsc_isSome_agree (env1 env2 : Env) (hf : env1.fetch = env2.fetch)
    (hg : env1.gunzip = env2.gunzip)
    (hp : ∀ b, (env1.fromstring b).isSome = (env2.fromstring b).isSome) (u : String) :
    (get_sitemap_content env1 u).isSome = (get_sitemap_content env2 u).isSome := by
  unfold get_sitemap_content
  rw [hf, hg]
  cases h : env2.fetch u with
  | exn => rfl
  | ok r =>
    by_cases h200 : r.status = 200
    · simp only [h200, if_true]
      cases hd : (if (pyEndsWith u ".gz" || r.contentTypeGzip) = true
          then env2.gunzip r.body else some r.body) with
      | none => rfl
      | some content =>
        exact (isSome_parse_step (env1.fromstring content)).trans
          ((hp content).trans (isSome_parse_step (env2.fromstring content)).symm)
    · simp [h200]

/-- `expandUrls` requests the same URLs and appends the same number of
results in agreeing environments. -/
theorem expandUrls_agree (env1 env2 : Env) (hf : env1.fetch = env2.fetch)
    (hg : env1.gunzip = env2.gunzip)
    (hp : ∀ b, (env1.fromstring b).isSome = (env2.fromstring b).isSome) (urls : List String) :
    (expandUrls env1 urls).1.length = (expandUrls env2 urls).1.length ∧
    (expandUrls env1 urls).2 = (expandUrls env2 urls).2 := by
  induction urls with
  | nil => exact ⟨rfl, rfl⟩
  | cons u rest ih =>
    have hs := gsc_isSome_agree env1 env2 hf hg hp u
    unfold expandUrls
    cases hr1 : expandUrls env1 rest with
    | mk rs1 ts1 =>
      cases hr2 : expandUrls env2 rest with
      | mk rs2 ts2 =>
        rw [hr1, hr2] at ih
        simp only at ih
        cases h1 : get_sitemap_content env1 u with
        | none =>
          cases h2 : get_sitemap_content env2 u with
          | none =>
            simp only [h1, h2, hr1, hr2]
            exact ⟨ih.1, by rw [ih.2]⟩
          | some c2 => rw [h1, h2] at hs; simp at hs
        | some c1 =>
          cases h2 : get_sitemap_content env2 u with
          | none => rw [h1, h2] at hs; simp at hs
          | some c2 =>
            simp only [h1, h2, hr1, hr2]
            exact ⟨by simp [ih.1], by rw [ih.2]⟩

/-- A candidate iteration requests the same URLs and has the same outcome
shape (error, or number of appended results) in agreeing environments. -/
theorem handleCandidate_agree (env1 env2 : Env) (hf : env1.fetch = env2.fetch)
    (hg : env1.gunzip = env2.gunzip)
    (hp : ∀ b, (env1.fromstring b).isSome = (env2.fromstring b).isSome)
    (base_url spath : String) :
    exLen (handleCandidate env1 base_url spath).1 =
      exLen (handleCandidate env2 base_url spath).1 ∧
    (handleCandidate env1 base_url spath).2 = (handleCandidate env2 base_url spath).2 := by
  unfold handleCandidate
  simp only [hf]
  cases h : env2.fetch (urljoin base_url spath) with
  | exn => exact ⟨rfl, rfl⟩
  | ok r =>
    by_cases h200 : r.status = 200
    · by_cases hrb : spath = "robots.txt"
      · simp only [h200, if_true, hrb, if_pos]
        cases hpr : parse_robots_txt r.text with
        | error e => exact ⟨rfl, rfl⟩
        | ok sitemap_urls =>
          obtain ⟨hel, het⟩ := expandUrls_agree env1 env2 hf hg hp sitemap_urls
          refine ⟨?_, ?_⟩ <;> simp [exLen, Except.map, hel, het]
      · simp only [h200, if_true, hrb, if_false]
        have hs := gsc_isSome_agree env1 env2 hf hg hp (urljoin base_url spath)
        cases h1 : get_sitemap_content env1 (urljoin base_url spath) with
        | none =>
          cases h2 : get_sitemap_content env2 (urljoin base_url spath) with
          | none => refine ⟨?_, ?_⟩ <;> simp
          | some c2 => rw [h1, h2] at hs; simp at hs
        | some c1 =>
          cases h2 : get_sitemap_content env2 (urljoin base_url spath) with
          | none => rw [h1, h2] at hs; simp at hs
          | some c2 => refine ⟨?_, ?_⟩ <;> simp [exLen, Except.map]
    · simp only [h200, if_false]
      by_cases h403 : r.status = 403
      · rw [if_pos h403, if_pos h403]
        cases ha : env2.fetch (urljoin ((if urlparseScheme base_url = "http" then "https"
            else "http") ++ "://" ++ urlparseNetloc base_url) spath) with
        | exn => exact ⟨rfl, rfl⟩
        | ok ar =>
          by_cases ha200 : ar.status = 200
          · simp only [ha200, if_true]
            have hs := gsc_isSome_agree env1 env2 hf hg hp
              (urljoin ((if urlparseScheme base_url = "http" then "https"
                else "http") ++ "://" ++ urlparseNetloc base_url) spath)
            cases h1 : get_sitemap_content env1 (urljoin ((if urlparseScheme base_url = "http"
                then "https" else "http") ++ "://" ++ urlparseNetloc base_url) spath) with
            | none =>
              cases h2 : get_sitemap_content env2 (urljoin ((if urlparseScheme base_url = "http"
                  then "https" else "http") ++ "://" ++ urlparseNetloc base_url) spath) with
              | none => refine ⟨?_, ?_⟩ <;> simp
              | some c2 => rw [h1, h2] at hs; simp at hs
            | some c1 =>
              cases h2 : get_sitemap_content env2 (urljoin ((if urlparseScheme base_url = "http"
                  then "https" else "http") ++ "://" ++ urlparseNetloc base_url) spath) with
              | none => rw [h1, h2] at hs; simp at hs
              | some c2 => refine ⟨?_, ?_⟩ <;> simp [exLen, Except.map]
          · simp only [ha200]
            refine ⟨?_, ?_⟩ <;> simp
      · rw [if_neg h403, if_neg h403]
        exact ⟨rfl, rfl⟩

/-- The candidate loop requests the same URLs and has the same outcome
shape in agreeing environments. -/
theorem candidateLoop_agree (env1 env2 : Env) (hf : env1.fetch = env2.fetch)
    (hg : env1.gunzip = env2.gunzip)
    (hp : ∀ b, (env1.fromstring b).isSome = (env2.fromstring b).isSome)
    (base_url : String) (l : List String) :
    exLen (candidateLoop env1 base_url l).1 = exLen (candidateLoop env2 base_url l).1 ∧
    (candidateLoop env1 base_url l).2 = (candidateLoop env2 base_url l).2 := by
  induction l with
  | nil => exact ⟨rfl, rfl⟩
  | cons s rest ih =>
    obtain ⟨hce, hct⟩ := handleCandidate_agree env1 env2 hf hg hp base_url s
    unfold candidateLoop
    cases hh1 : handleCandidate env1 base_url s with
    | mk e1 t1 =>
      cases hh2 : handleCandidate env2 base_url s with
      | mk e2 t2 =>
        rw [hh1, hh2] at hce hct
        simp only at hce hct
        cases e1 with
        | error e0 =>
          cases e2 with
          | error e0' =>
            cases e0
            cases e0'
            exact ⟨rfl, hct⟩
          | ok rs2 => simp [exLen, Except.map] at hce
        | ok rs1 =>
          cases e2 with
          | error e0 => simp [exLen, Except.map] at hce
          | ok rs2 =>
            simp only [exLen, Except.map, Except.ok.injEq] at hce
            cases hl1 : candidateLoop env1 base_url rest with
            | mk f1 u1 =>
              cases hl2 : candidateLoop env2 base_url rest with
              | mk f2 u2 =>
                rw [hl1, hl2] at ih
                simp only at ih
                obtain ⟨ihe, iht⟩ := ih
                cases f1 with
                | error e0 =>
                  cases f2 with
                  | error e0' =>
                    cases e0
                    cases e0'
                    exact ⟨rfl, by rw [hct, iht]⟩
                  | ok rs2' => simp [exLen, Except.map] at ihe
                | ok rs1' =>
                  cases f2 with
                  | error e0 => simp [exLen, Except.map] at ihe
                  | ok rs2' =>
                    simp only [exLen, Except.map, Except.ok.injEq] at ihe
                    refine ⟨?_, by rw [hct, iht]⟩
                    simp [exLen, Except.map, hce, ihe]

/-- The homepage fallback requests the same URLs and appends the same
number of results in agreeing environments. -/
theorem homepageFallback_agree (env1 env2 : Env) (hf : env1.fetch = env2.fetch)
    (hg : env1.gunzip = env2.gunzip)
    (hp : ∀ b, (env1.fromstring b).isSome = (env2.fromstring b).isSome)
    (base_url : String) :
    (homepageFallback env1 base_url).1.length = (homepageFallback env2 base_url).1.length ∧
    (homepageFallback env1 base_url).2 = (homepageFallback env2 base_url).2 := by
  unfold homepageFallback
  rw [hf]
  cases h : env2.fetch base_url with
  | exn => exact ⟨rfl, rfl⟩
  | ok r =>
    by_cases h200 : r.status = 200
    · simp only [h200, if_true]
      obtain ⟨hel, het⟩ :=
        expandUrls_agree env1 env2 hf hg hp (find_sitemaps_in_html r.text base_url)
      cases he1 : expandUrls env1 (find_sitemaps_in_html r.text base_url) with
      | mk rs1 ts1 =>
        cases he2 : expandUrls env2 (find_sitemaps_in_html r.text base_url) with
        | mk rs2 ts2 =>
          rw [he1, he2] at hel het
          simp only at hel het
          exact ⟨hel, by rw [het]⟩
    · simp [h200]

/-- Claim C8 (confirmed): the sequence of URLs a run requests depends only
on the responses, the gzip outcomes and parse success/failure — never on
the contents of parsed documents.  Two environments that agree on those
but parse to arbitrarily different documents (in particular, different
child entries of Index documents) produce identical request traces: index
children are reported but never themselves fetched, decoded or parsed. -/
theorem c8_index_children_never_fetched (env1 env2 : Env) (base_url : String) (threshold : Int)
    (hf : env1.fetch = env2.fetch) (hg : env1.gunzip = env2.gunzip)
    (hp : ∀ b, (env1.fromstring b).isSome = (env2.fromstring b).isSome) :
    (get_sitemaps_from_url env1 base_url threshold).2 =
      (get_sitemaps_from_url env2 base_url threshold).2 := by
  obtain ⟨hce, hct⟩ := candidateLoop_agree env1 env2 hf hg hp base_url SITEMAP_INDICATORS
  unfold get_sitemaps_from_url
  cases hl1 : candidateLoop env1 base_url SITEMAP_INDICATORS with
  | mk e1 t1 =>
    cases hl2 : candidateLoop env2 base_url SITEMAP_INDICATORS with
    | mk e2 t2 =>
      rw [hl1, hl2] at hce hct
      simp only at hce hct
      cases e1 with
      | error e0 =>
        cases e2 with
        | error e0' =>
          cases e0
          cases e0'
          exact hct
        | ok rs2 => simp [exLen, Except.map] at hce
      | ok rs1 =>
        cases e2 with
        | error e0 => simp [exLen, Except.map] at hce
        | ok rs2 =>
          simp only [exLen, Except.map, Except.ok.injEq] at hce
          have hemp : rs1.isEmpty = rs2.isEmpty := by
            cases rs1 with
            | nil =>
              cases rs2 with
              | nil => rfl
              | cons x xs => simp at hce
            | cons x xs =>
              cases rs2 with
              | nil => simp at hce
              | cons y ys => rfl
          by_cases hrs : rs1.isEmpty
          · have hrs2 : rs2.isEmpty = true := by rw [← hemp]; exact hrs
            obtain ⟨hhl, hht⟩ := homepageFallback_agree env1 env2 hf hg hp base_url
            cases hb1 : homepageFallback env1 base_url with
            | mk fr1 ft1 =>
              cases hb2 : homepageFallback env2 base_url with
              | mk fr2 ft2 =>
                rw [hb1, hb2] at hht
                simp only at hht
                simp only [hrs, hrs2, if_true]
                simp [hct, hht]
          · have hrs1 : rs1.isEmpty = false := by simpa using hrs
            have hrs2 : rs2.isEmpty = false := by rw [← hemp]; exact hrs1
            simp [hrs1, hrs2, hct]

/-- Witness for C8: the two environments taken equal. -/
theorem c8_index_children_never_fetched_witness :
    (get_sitemaps_from_url envAll404 "http://h" 50).2 =
      (get_sitemaps_from_url envAll404 "http://h" 50).2 :=
  c8_index_children_never_fetched envAll404 envAll404 "http://h" 50 rfl rfl (fun _ => rfl)

end SitemapTool
